import Mathlib

/-!
Shallow embedding of `src/k1max-ws-bridge/app.py` (the K1/K1 Max
websocket-to-MQTT bridge) and proofs about it.

Modelling conventions:
* Python scalars are modelled by `PyVal`; numbers (Python `int` and
  `float`) are both modelled by `ℚ`, so floating-point representation
  effects are out of scope.
* `float(x)` is modelled by `pyFloat`, returning `Option ℚ`; `none`
  models the `ValueError`/`TypeError` raised on unparsable input (the
  string parser models plain decimal literals; exotic accepted forms
  such as exponents, `inf`, `nan`, underscores and surrounding
  whitespace are not modelled).
* Python `round(x, 2)` is modelled by `pyRound2` (round-half-to-even at
  two decimals, on the mathematical value).
* The websocket, MQTT client and JSONPath engine are external
  libraries; they are modelled as parameters/events: the JSONPath
  engine is a parameter `find : String → Frame → List PyVal` returning
  the engine-ordered match list, the network is a list of `Event`s, and
  MQTT publication is an emitted `Act`.
-/

/-- Model of a Python value as passed around by the bridge. -/
inductive PyVal where
  | none
  | bool (b : Bool)
  | num (q : ℚ)
  | str (s : String)
  | list (l : List PyVal)
  | dict (d : List (String × PyVal))

mutual

/-- Model of Python `str(v)`. Container and number rendering is
approximate (no claim depends on the rendered text of containers or on
int-versus-float display). -/
def pyStr : PyVal → String
  | PyVal.none => "None"
  | PyVal.bool b => if b then "True" else "False"
  | PyVal.num q => toString q
  | PyVal.str s => s
  | PyVal.list l => "[" ++ pyStrList l ++ "]"
  | PyVal.dict d => "\x7b" ++ pyStrDict d ++ "\x7d"

/-- Comma-separated rendering of a list's elements. -/
def pyStrList : List PyVal → String
  | [] => ""
  | [x] => pyStr x
  | x :: xs => pyStr x ++ ", " ++ pyStrList xs

/-- Comma-separated rendering of a dict's entries. -/
def pyStrDict : List (String × PyVal) → String
  | [] => ""
  | [kv] => kv.1 ++ ": " ++ pyStr kv.2
  | kv :: kvs => kv.1 ++ ": " ++ pyStr kv.2 ++ ", " ++ pyStrDict kvs

end

/-- Split a character list at every dot, like `String.splitOn "."`. -/
def splitOnDot : List Char → List (List Char)
  | [] => [[]]
  | c :: rest =>
      let r := splitOnDot rest
      if c = '.' then [] :: r
      else match r with
           | g :: gs => (c :: g) :: gs
           | [] => [[c]]

/-- Value of a nonempty all-digit character list, else `none`. -/
def digitsToNat (cs : List Char) : Option ℕ :=
  if cs ≠ [] ∧ cs.all (fun c => c.isDigit) then
    Option.some (cs.foldl (fun n c => 10 * n + (c.toNat - 48)) 0)
  else Option.none

/-- Parse an unsigned decimal literal (digits, optionally with a dot). -/
def parseUnsigned (cs : List Char) : Option ℚ :=
  match splitOnDot cs with
  | [i] => (digitsToNat i).map (fun n => (n : ℚ))
  | [i, f] =>
      if i = [] ∧ f = [] then Option.none
      else
        match (if i = [] then Option.some 0 else digitsToNat i),
              (if f = [] then Option.some 0 else digitsToNat f) with
        | Option.some ip, Option.some fp =>
            Option.some ((ip : ℚ) + (fp : ℚ) / (10 : ℚ) ^ f.length)
        | _, _ => Option.none
  | _ => Option.none

/-- Parse a signed decimal literal. -/
def parseFloat (s : String) : Option ℚ :=
  match s.toList with
  | '-' :: rest => (parseUnsigned rest).map (fun q => -q)
  | '+' :: rest => parseUnsigned rest
  | cs => parseUnsigned cs

/-- Model of Python `float(x)`: `none` models a raised
`ValueError`/`TypeError` (caught by the `except` in `transform_value`). -/
def pyFloat : PyVal → Option ℚ
  | PyVal.num q => Option.some q
  | PyVal.bool b => Option.some (if b then 1 else 0)
  | PyVal.str s => parseFloat s
  | _ => Option.none

/-- Round to the nearest integer, ties to the even integer (Python
`round`'s rounding mode). -/
def roundHalfEven (q : ℚ) : ℤ :=
  let f : ℚ := q - (⌊q⌋ : ℚ)
  if f < 1/2 then ⌊q⌋
  else if 1/2 < f then ⌊q⌋ + 1
  else if ⌊q⌋ % 2 = 0 then ⌊q⌋ else ⌊q⌋ + 1

/-- Model of Python `round(q, 2)`. -/
def pyRound2 (q : ℚ) : ℚ := (roundHalfEven (q * 100) : ℚ) / 100

/-- Model of Python `int(q)` on a float: truncation toward zero. -/
def pyInt (q : ℚ) : ℤ := if 0 ≤ q then ⌊q⌋ else ⌈q⌉

/-- Model of the Python format spec `f"{z:02d}"`: decimal rendering
left-padded with zeros to width two. -/
def format02 (z : ℤ) : String :=
  if 0 ≤ z ∧ z < 10 then "0" ++ toString z else toString z

/-- The `HH:MM:SS` rendering of `transform_value`'s `seconds_to_hms`
branch: Python `//` and `%` are floor division and floor-signed
modulus, modelled by `Int.fdiv` / `Int.fmod`. -/
def hmsFormat (s : ℤ) : String :=
  format02 (Int.fdiv s 3600) ++ ":"
    ++ format02 (Int.fdiv (Int.fmod s 3600) 60) ++ ":"
    ++ format02 (Int.fmod s 60)

/-- Embedding of `transform_value(x, mode)` (app.py lines 40-55). -/
def transform_value (x : PyVal) (mode : String) : PyVal :=
  match x with
  | PyVal.none => PyVal.none
  | _ =>
    if mode = "percent_0_1_to_0_100" then
      match pyFloat x with
      | Option.some val =>
          if 0 ≤ val ∧ val ≤ 1 then PyVal.num (pyRound2 (val * 100))
          else PyVal.num (pyRound2 val)
      | Option.none => x
    else if mode = "seconds_to_hms" then
      match pyFloat x with
      | Option.some val => PyVal.str (hmsFormat (pyInt val))
      | Option.none => x
    else x

/-- One field mapping from `cfg["mappings"]`; optional keys are `Option`. -/
structure Mapping where
  unique_id : String
  name : String
  jsonpath : String
  transform : Option String
  unit : Option String
  icon : Option String
  device_class : Option String
  state_class : Option String
deriving DecidableEq

/-- The bridge configuration (the parts `Bridge.__init__` keeps).
`discRoot` models `cfg["mqtt"]["discovery_prefix"]`; MQTT host, port and
credentials are consumed by the external client and are not modelled. -/
structure Config where
  ws_url : String
  base_topic : String
  device_id : String
  device_name : String
  discRoot : String
  mappings : List Mapping
  log_raw_frames : Bool
  raw_frames_limit : Int

/-- JSON-ish value for the discovery record. -/
inductive JVal where
  | str (s : String)
  | arr (l : List JVal)
  | obj (l : List (String × JVal))

/-- Python truthiness of an optional string (`if sensor.get(k):`):
missing keys, `None` and the empty string are falsy. -/
def truthy : Option String → Bool
  | Option.some s => s != ""
  | Option.none => false

/-- Python `sensor.get(k) or default`. -/
def pyOr (o : Option String) (d : String) : String :=
  match o with
  | Option.some s => if s != "" then s else d
  | Option.none => d

/-- The state topic formula `f"{base_topic}/state/{uid}"`. -/
def state_topic (base uid : String) : String := base ++ "/state/" ++ uid

/-- The discovery topic formula
`f"{discovery_prefix}/sensor/{device_id}/{uid}/config"`. -/
def discovery_topic (root devId uid : String) : String :=
  root ++ "/sensor/" ++ devId ++ "/" ++ uid ++ "/config"

/-- One conditional discovery entry (`if sensor.get(k): disc[k1] = sensor[k]`):
emitted only when the optional value is truthy. -/
def condList (key : String) (o : Option String) : List (String × JVal) :=
  if truthy o then [(key, JVal.str (o.getD ""))] else []

/-- The value a conditional discovery key ends up with: the unchanged
value exactly when the key is set to a nonempty string, absent otherwise. -/
def condEntry (o : Option String) : Option JVal :=
  match o with
  | Option.some u => if u = "" then Option.none else Option.some (JVal.str u)
  | Option.none => Option.none

/-- Embedding of `to_discovery(sensor, cfg)` (app.py lines 19-38):
a Python dict in insertion order. -/
def to_discovery (sensor : Mapping) (cfg : Config) : List (String × JVal) :=
  [("name", JVal.str sensor.name),
   ("state_topic", JVal.str (state_topic cfg.base_topic sensor.unique_id)),
   ("unique_id", JVal.str sensor.unique_id),
   ("device", JVal.obj [("identifiers", JVal.arr [JVal.str cfg.device_id]),
                        ("manufacturer", JVal.str "Creality"),
                        ("name", JVal.str cfg.device_name),
                        ("model", JVal.str "K1/K1 Max (WS Bridge)")]),
   ("icon", JVal.str (pyOr sensor.icon "mdi:printer-3d"))]
  ++ condList "unit_of_measurement" sensor.unit
  ++ condList "device_class" sensor.device_class
  ++ condList "state_class" sensor.state_class

/-- An MQTT payload: either the (unserialised) discovery record or a
state string (`json.dumps` serialisation is not modelled; the payload
carries the record itself). -/
inductive Payload where
  | json (record : List (String × JVal))
  | text (s : String)

/-- One observable effect of the bridge, in program order. `setBackoff`
records an assignment to the supervisor's `backoff` variable so that
ordering relative to published messages is expressible. -/
inductive Act where
  | log (line : String)
  | publish (topic : String) (payload : Payload) (qos : ℕ) (retain : Bool)
  | sleep (duration : ℕ)
  | setBackoff (n : ℕ)

/-- Embedding of `Bridge.publish_discovery` (app.py lines 73-79): one
retained QoS-1 publish plus one log line per mapping, in mapping order. -/
def publish_discovery (cfg : Config) : List Act :=
  List.flatten (cfg.mappings.map (fun s =>
    [Act.publish (discovery_topic cfg.discRoot cfg.device_id s.unique_id)
       (Payload.json (to_discovery s cfg)) 1 true,
     Act.log ("Published discovery: "
       ++ discovery_topic cfg.discRoot cfg.device_id s.unique_id)]))

/-- Embedding of `Bridge.publish_state` (app.py lines 81-84). -/
def publish_state (cfg : Config) (uid : String) (value : PyVal) : Act :=
  Act.publish (state_topic cfg.base_topic uid)
    (Payload.text (match value with | PyVal.none => "" | v => pyStr v)) 0 true

/-- Insert-or-update on an insertion-ordered association list (Python
dict assignment `out[k] = v`). -/
def dictInsert (k : String) (v : PyVal) : List (String × PyVal) → List (String × PyVal)
  | [] => [(k, v)]
  | (k1, v1) :: rest => if k1 = k then (k, v) :: rest else (k1, v1) :: dictInsert k v rest

/-- Body of the `for s in self.maps` loop of `Bridge.extract_values`:
first match (or `None`), transformed, written to the output dict. The
JSONPath engine is the parameter `find`, returning the match values in
its evaluation order. -/
def extractStep {Frame : Type} (find : String → Frame → List PyVal) (msg : Frame)
    (out : List (String × PyVal)) (s : Mapping) : List (String × PyVal) :=
  let value : PyVal :=
    match find s.jsonpath msg with
    | [] => PyVal.none
    | v :: _ => v
  dictInsert s.unique_id (transform_value value (s.transform.getD "none")) out

/-- Embedding of `Bridge.extract_values` (app.py lines 86-94). -/
def extract_values {Frame : Type} (find : String → Frame → List PyVal)
    (maps : List Mapping) (msg : Frame) : List (String × PyVal) :=
  maps.foldl (extractStep find msg) []

/-- The supervisor's mutable state: current backoff, remaining raw-frame
debug quota, and whether a streaming session is currently open. -/
structure LoopState where
  backoff : ℕ
  rawLeft : ℤ
  conn : Bool

/-- One inbound frame while connected: `bad` models a frame on which
`json.loads` raises `JSONDecodeError`, `good` one that parses to `data`. -/
inductive FrameEvt (Frame : Type) where
  | bad (raw : String)
  | good (data : Frame)

/-- One iteration of the `while True` loop, as decided by the network:
either the connection attempt fails, or a session opens, delivers
`frames`, and then either ends in a caught connection error (`some err`)
or closes cleanly (`none`). -/
inductive Event (Frame : Type) where
  | connFail (err : String)
  | session (frames : List (FrameEvt Frame)) (err : Option String)

/-- Processing of one inbound frame (body of `async for msg in ws`). -/
def procFrame {Frame : Type} (find : String → Frame → List PyVal) (cfg : Config)
    (fe : FrameEvt Frame) (st : LoopState) : List Act × LoopState :=
  match fe with
  | FrameEvt.bad raw =>
      if 0 < st.rawLeft then
        ([Act.log ("RAW(nonjson) = " ++ raw.take 500)], { st with rawLeft := st.rawLeft - 1 })
      else ([], st)
  | FrameEvt.good data =>
      let pre : List Act × LoopState :=
        if 0 < st.rawLeft then
          ([Act.log "RAW(json) = <dump of data>"], { st with rawLeft := st.rawLeft - 1 })
        else ([], st)
      (pre.1 ++ (extract_values find cfg.mappings data).map (fun uv => publish_state cfg uv.1 uv.2),
       pre.2)

/-- Processing of a list of inbound frames, threading the state. -/
def procFrames {Frame : Type} (find : String → Frame → List PyVal) (cfg : Config) :
    List (FrameEvt Frame) → LoopState → List Act × LoopState
  | [], st => ([], st)
  | fe :: rest, st =>
      let a := procFrame find cfg fe st
      let b := procFrames find cfg rest a.2
      (a.1 ++ b.1, b.2)

/-- The `except` handler of `ws_loop`: log, sleep the current backoff,
then double the backoff capped at 60. -/
def failActions (err : String) (st : LoopState) : List Act × LoopState :=
  ([Act.log ("WS error: " ++ err ++ " - retrying in " ++ toString st.backoff ++ "s"),
    Act.sleep st.backoff,
    Act.setBackoff (min (st.backoff * 2) 60)],
   { st with backoff := min (st.backoff * 2) 60, conn := false })

/-- One iteration of `Bridge.ws_loop`'s `while True` body, driven by one
network event. On a successful open the source order is: log
"WebSocket connected.", `publish_discovery()`, `backoff = 2`, then the
frame loop. -/
def wsStep {Frame : Type} (find : String → Frame → List PyVal) (cfg : Config)
    (ev : Event Frame) (st : LoopState) : List Act × LoopState :=
  match ev with
  | Event.connFail err =>
      let f := failActions err { st with conn := false }
      (Act.log ("Connecting to WebSocket: " ++ cfg.ws_url) :: f.1, f.2)
  | Event.session frames err =>
      let pre : List Act :=
        Act.log ("Connecting to WebSocket: " ++ cfg.ws_url)
          :: Act.log "WebSocket connected."
          :: publish_discovery cfg ++ [Act.setBackoff 2]
      let fr := procFrames find cfg frames { st with conn := true, backoff := 2 }
      match err with
      | Option.some e =>
          let f := failActions e fr.2
          (pre ++ fr.1 ++ f.1, f.2)
      | Option.none => (pre ++ fr.1, { fr.2 with conn := false })

/-- The supervisor state at process start (`backoff = 2`; the raw-frame
quota per `Bridge.__init__`). -/
def initState (cfg : Config) : LoopState :=
  { backoff := 2,
    rawLeft := if cfg.log_raw_frames then cfg.raw_frames_limit else 0,
    conn := false }

/-- Run the loop over a list of network events from a given state. -/
def wsRun {Frame : Type} (find : String → Frame → List PyVal) (cfg : Config) :
    List (Event Frame) → LoopState → List Act × LoopState
  | [], st => ([], st)
  | e :: es, st =>
      let a := wsStep find cfg e st
      let b := wsRun find cfg es a.2
      (a.1 ++ b.1, b.2)

/-- Embedding of `Bridge.ws_loop` over a finite event prefix. -/
def ws_loop {Frame : Type} (find : String → Frame → List PyVal) (cfg : Config)
    (events : List (Event Frame)) : List Act × LoopState :=
  wsRun find cfg events (initState cfg)

/-- Number of consecutive connection failures at the end of the event
list, continuing a run of `k` earlier failures: a failed attempt adds
one, a session ending in error is a success followed by one failure,
and a cleanly closed session resets the run to zero. -/
def consecFailsFrom {Frame : Type} (k : ℕ) : List (Event Frame) → ℕ
  | [] => k
  | Event.connFail _ :: es => consecFailsFrom (k + 1) es
  | Event.session _ (Option.some _) :: es => consecFailsFrom 1 es
  | Event.session _ Option.none :: es => consecFailsFrom 0 es

/-- Number of consecutive connection failures at the end of the event list. -/
def consecFails {Frame : Type} (events : List (Event Frame)) : ℕ :=
  consecFailsFrom 0 events

/-- The sleep durations occurring in a trace, in order. -/
def sleepDurations (acts : List Act) : List ℕ :=
  acts.filterMap (fun a => match a with | Act.sleep n => Option.some n | _ => Option.none)

/-- Whether an action is a discovery publication (JSON-record payload). -/
def Act.isDiscoveryPublish : Act → Bool
  | Act.publish _ (Payload.json _) _ _ => true
  | _ => false

/-- Whether an action is any MQTT publication. -/
def Act.isPublish : Act → Bool
  | Act.publish _ _ _ _ => true
  | _ => false

/-- Whether an action records the backoff reset to the floor value 2. -/
def Act.isBackoffReset : Act → Bool
  | Act.setBackoff n => n == 2
  | _ => false

/-- Whether, in a trace, a backoff reset to the floor occurs before the
first discovery publication. -/
def resetBeforeDiscovery (acts : List Act) : Bool :=
  (acts.takeWhile (fun a => ! a.isDiscoveryPublish)).any (fun a => a.isBackoffReset)

/-- Concrete JSONPath engine for witnesses: two matches on `$.a`, none
elsewhere (frames are trivial). -/
def findW : String → Unit → List PyVal :=
  fun p _ => if p = "$.a" then [PyVal.num 1, PyVal.num 2] else []

/-- Witness mapping with all optional discovery keys set. -/
def mFull : Mapping :=
  { unique_id := "p", name := "Progress", jsonpath := "$.a",
    transform := Option.some "none", unit := Option.some "C",
    icon := Option.none, device_class := Option.some "temperature",
    state_class := Option.some "measurement" }

/-- Witness mapping with no optional discovery keys. -/
def mBare : Mapping :=
  { unique_id := "q", name := "Other", jsonpath := "$.b",
    transform := Option.none, unit := Option.none, icon := Option.none,
    device_class := Option.none, state_class := Option.none }

/-- Mapping whose `unit` key is present but empty (Python-falsy). -/
def mEmptyUnit : Mapping :=
  { mBare with unique_id := "r", unit := Option.some "" }

/-- Concrete configuration for witnesses and counterexamples. -/
def cfgW : Config :=
  { ws_url := "ws://printer:9999", base_topic := "k1max",
    device_id := "k1max_printer", device_name := "K1 Max",
    discRoot := "homeassistant", mappings := [mFull, mBare],
    log_raw_frames := true, raw_frames_limit := 3 }

/-- `transform_value` on a number in percent mode, unfolded. -/
theorem transform_value_num_percent (q : ℚ) :
    transform_value (PyVal.num q) "percent_0_1_to_0_100"
      = if 0 ≤ q ∧ q ≤ 1 then PyVal.num (pyRound2 (q * 100)) else PyVal.num (pyRound2 q) := rfl

/-- `transform_value` on a number in `seconds_to_hms` mode, unfolded. -/
theorem transform_value_num_hms (q : ℚ) :
    transform_value (PyVal.num q) "seconds_to_hms" = PyVal.str (hmsFormat (pyInt q)) := rfl

/-- C3: for mode `percent_0_1_to_0_100`, a numeric value in the closed
interval [0,1] is mapped to `round(v*100, 2)` and a numeric value
outside [0,1] is mapped to `round(v, 2)` (not rescaled). -/
theorem transform_percent_spec (q : ℚ) :
    ((0 ≤ q ∧ q ≤ 1) →
      transform_value (PyVal.num q) "percent_0_1_to_0_100" = PyVal.num (pyRound2 (q * 100)))
    ∧ (¬ (0 ≤ q ∧ q ≤ 1) →
      transform_value (PyVal.num q) "percent_0_1_to_0_100" = PyVal.num (pyRound2 q)) := by
  refine ⟨fun h => ?_, fun h => ?_⟩ <;> rw [transform_value_num_percent]
  · rw [if_pos h]
  · rw [if_neg h]

/-- Witness for C3 at the concrete inputs 1 (inside [0,1]) and 2 (outside). -/
theorem transform_percent_spec_witness :
    transform_value (PyVal.num 1) "percent_0_1_to_0_100" = PyVal.num (pyRound2 (1 * 100))
    ∧ transform_value (PyVal.num 2) "percent_0_1_to_0_100" = PyVal.num (pyRound2 2) :=
  ⟨(transform_percent_spec 1).1 (by norm_num), (transform_percent_spec 2).2 (by norm_num)⟩

/-- C4: for every non-negative integer s in `seconds_to_hms` mode the
output is a zero-padded `HH:MM:SS` rendering with
`3600*H + 60*M + S = s`, `M < 60`, `S < 60`; hours of 100 or more still
render (wider field), as the 360000-second instance shows. -/
theorem transform_hms_spec (n : ℕ) :
    (∃ H M S : ℕ,
      transform_value (PyVal.num (n : ℚ)) "seconds_to_hms"
        = PyVal.str (format02 (H : ℤ) ++ ":" ++ format02 (M : ℤ) ++ ":" ++ format02 (S : ℤ))
      ∧ 3600 * H + 60 * M + S = n ∧ M < 60 ∧ S < 60)
    ∧ transform_value (PyVal.num 360000) "seconds_to_hms" = PyVal.str "100:00:00" := by
  constructor
  · refine ⟨n / 3600, n % 3600 / 60, n % 60, ?_, by omega, by omega, by omega⟩
    rw [transform_value_num_hms]
    have h2 : pyInt (n : ℚ) = (n : ℤ) := by
      simp [pyInt, Int.floor_natCast]
    rw [h2, hmsFormat]
    have e1 : ((3600 : ℕ) : ℤ) = 3600 := by norm_num
    have e2 : ((60 : ℕ) : ℤ) = 60 := by norm_num
    rw [← e1, ← e2, ← Int.ofNat_fdiv, ← Int.ofNat_fmod, ← Int.ofNat_fmod, ← Int.ofNat_fdiv]
  · rfl

/-- C8: a non-`None` value that does not parse as a number passes
through both numeric transform modes unchanged (lenient fallback), and
`None` input yields `None` for every mode. -/
theorem transform_fallback_spec (x : PyVal) (mode : String) :
    (x ≠ PyVal.none → pyFloat x = Option.none →
      transform_value x "percent_0_1_to_0_100" = x ∧ transform_value x "seconds_to_hms" = x)
    ∧ transform_value PyVal.none mode = PyVal.none := by
  refine ⟨fun hx hf => ?_, rfl⟩
  cases x with
  | none => exact absurd rfl hx
  | bool b => exact ⟨by simp [transform_value, hf], by simp [transform_value, hf]⟩
  | num q => exact ⟨by simp [transform_value, hf], by simp [transform_value, hf]⟩
  | str s => exact ⟨by simp [transform_value, hf], by simp [transform_value, hf]⟩
  | list l => exact ⟨by simp [transform_value, hf], by simp [transform_value, hf]⟩
  | dict d => exact ⟨by simp [transform_value, hf], by simp [transform_value, hf]⟩

/-- Witness for C8 at the unparsable string "abc" and at `None` with an
arbitrary mode. -/
theorem transform_fallback_spec_witness :
    transform_value (PyVal.str "abc") "percent_0_1_to_0_100" = PyVal.str "abc"
    ∧ transform_value PyVal.none "anything" = PyVal.none :=
  ⟨((transform_fallback_spec (PyVal.str "abc") "anything").1
      (fun h => PyVal.noConfusion h) (by decide)).1,
   (transform_fallback_spec (PyVal.str "abc") "anything").2⟩

/-- C10: any mode string other than the two numeric modes — not only
"none" — acts as the identity on non-`None` values. -/
theorem transform_unknown_mode_spec (x : PyVal) (mode : String)
    (hx : x ≠ PyVal.none) (h1 : mode ≠ "percent_0_1_to_0_100") (h2 : mode ≠ "seconds_to_hms") :
    transform_value x mode = x := by
  cases x with
  | none => exact absurd rfl hx
  | bool b => simp [transform_value, h1, h2]
  | num q => simp [transform_value, h1, h2]
  | str s => simp [transform_value, h1, h2]
  | list l => simp [transform_value, h1, h2]
  | dict d => simp [transform_value, h1, h2]

/-- Witness for C10 at a concrete value and an arbitrary unknown mode name. -/
theorem transform_unknown_mode_spec_witness :
    transform_value (PyVal.str "v") "mystery" = PyVal.str "v" :=
  transform_unknown_mode_spec (PyVal.str "v") "mystery"
    (fun h => PyVal.noConfusion h) (by decide) (by decide)


/-- Looking up the key just inserted by `dictInsert` finds the new value. -/
theorem dictInsert_lookup_self (k : String) (v : PyVal) (l : List (String × PyVal)) :
    List.lookup k (dictInsert k v l) = Option.some v := by
  induction l with
  | nil => simp [dictInsert]
  | cons kv rest ih =>
      obtain ⟨k1, v1⟩ := kv
      by_cases h : k1 = k
      · subst h
        simp [dictInsert]
      · simp [dictInsert, h, List.lookup_cons, beq_false_of_ne (Ne.symm h), ih]

/-- `dictInsert` leaves lookups of other keys unchanged. -/
theorem dictInsert_lookup_other (k k1 : String) (h : k1 ≠ k) (v : PyVal)
    (l : List (String × PyVal)) :
    List.lookup k1 (dictInsert k v l) = List.lookup k1 l := by
  induction l with
  | nil =>
      have hb : (k1 == k) = false := beq_false_of_ne h
      simp [dictInsert, List.lookup, hb]
  | cons kv rest ih =>
      obtain ⟨k2, v2⟩ := kv
      by_cases h2 : k2 = k
      · subst h2
        simp [dictInsert, List.lookup_cons, beq_false_of_ne h]
      · simp [dictInsert, h2, List.lookup_cons, ih]

/-- Mappings whose unique_id differs from `k` do not affect `k`'s entry. -/
theorem extract_fold_preserve {Frame : Type} (find : String → Frame → List PyVal)
    (msg : Frame) (k : String) :
    ∀ (maps : List Mapping) (acc : List (String × PyVal)),
      k ∉ maps.map Mapping.unique_id →
      List.lookup k (maps.foldl (extractStep find msg) acc) = List.lookup k acc := by
  intro maps
  induction maps with
  | nil => intro acc _; rfl
  | cons s rest ih =>
      intro acc h
      rw [List.mem_map] at h
      push_neg at h
      rw [List.foldl_cons, ih]
      · exact dictInsert_lookup_other s.unique_id k
          (Ne.symm (h s (List.mem_cons_self s rest))) _ acc
      · rw [List.mem_map]
        push_neg
        intro m hm
        exact h m (List.mem_cons_of_mem _ hm)

/-- Core lookup property of the extraction fold, for any accumulator. -/
theorem extract_fold_lookup {Frame : Type} (find : String → Frame → List PyVal)
    (msg : Frame) :
    ∀ (maps : List Mapping) (acc : List (String × PyVal)) (m : Mapping),
      m ∈ maps → (maps.map Mapping.unique_id).Nodup →
      List.lookup m.unique_id (maps.foldl (extractStep find msg) acc)
        = Option.some (transform_value
            (match find m.jsonpath msg with | [] => PyVal.none | v :: _ => v)
            (m.transform.getD "none")) := by
  intro maps
  induction maps with
  | nil => intro acc m hm; exact absurd hm (List.not_mem_nil m)
  | cons s rest ih =>
      intro acc m hm hnd
      rw [List.map_cons, List.nodup_cons] at hnd
      rw [List.foldl_cons]
      rcases List.mem_cons.mp hm with rfl | hmem
      · rw [extract_fold_preserve find msg _ rest _ hnd.1]
        exact dictInsert_lookup_self _ _ _
      · exact ih _ m hmem hnd.2

/-- C2: for every frame and mapping list with pairwise-distinct
unique_ids (the spec's invariant), extraction yields an entry for every
mapping's unique_id: `None` when the path has no match, and the first
match in the engine's evaluation order, transformed, otherwise. -/
theorem extract_values_spec {Frame : Type} (find : String → Frame → List PyVal)
    (maps : List Mapping) (msg : Frame)
    (hnd : (maps.map Mapping.unique_id).Nodup) :
    ∀ m ∈ maps,
      (find m.jsonpath msg = [] →
        List.lookup m.unique_id (extract_values find maps msg) = Option.some PyVal.none)
      ∧ (∀ v rest, find m.jsonpath msg = v :: rest →
        List.lookup m.unique_id (extract_values find maps msg)
          = Option.some (transform_value v (m.transform.getD "none"))) := by
  intro m hm
  have h := extract_fold_lookup find msg maps [] m hm hnd
  constructor
  · intro hz
    rw [extract_values, h, hz]
    rfl
  · intro v rest hv
    rw [extract_values, h, hv]

/-- Witness for C2: engine `findW` has two matches on `$.a` (mapping
`mFull`) and none on `$.b` (mapping `mBare`). -/
theorem extract_values_spec_witness :
    List.lookup "p" (extract_values findW [mFull, mBare] ()) = Option.some (PyVal.num 1)
    ∧ List.lookup "q" (extract_values findW [mFull, mBare] ()) = Option.some PyVal.none := by
  have h := extract_values_spec findW [mFull, mBare] () (by decide)
  exact ⟨(h mFull (by decide)).2 (PyVal.num 1) [PyVal.num 2] rfl,
         (h mBare (by decide)).1 rfl⟩

/-- A conditional discovery entry looked up by its own key. -/
theorem lookup_condList_self (key : String) (o : Option String) :
    List.lookup key (condList key o) = condEntry o := by
  rcases o with - | u
  · rfl
  · by_cases h : u = ""
    · subst h; rfl
    · have hb : (u != "") = true := by simpa using h
      simp [condList, condEntry, truthy, hb, h]

/-- A conditional discovery entry contains no other key. -/
theorem lookup_condList_other (key k2 : String) (h : k2 ≠ key) (o : Option String) :
    List.lookup k2 (condList key o) = Option.none := by
  rcases o with - | u
  · rfl
  · by_cases hu : (u != "") = true
    · simp [condList, truthy, hu, List.lookup_cons, beq_false_of_ne h]
    · simp [condList, truthy, hu]

/-- C5 as stated is false on the code: a mapping whose `unit` key is
present but empty (Python-falsy) has no `unit_of_measurement` entry in
its discovery record, though `unit` is present on the mapping. -/
theorem discovery_presence_counterexample :
    ¬ (((List.lookup "unit_of_measurement" (to_discovery mEmptyUnit cfgW)).isSome = true)
        ↔ mEmptyUnit.unit.isSome = true) := by decide

/-- C5 (amended): the discovery record always contains name,
state_topic, unique_id, the nested device descriptor and an icon
(defaulted when unset or empty); it includes unit, device_class and
state_class with unchanged values exactly when they are present with a
nonempty (truthy) value, omitting them otherwise; and every discovery
record is published retained at QoS 1. -/
theorem discovery_record_spec (s : Mapping) (cfg : Config) :
    List.lookup "name" (to_discovery s cfg) = Option.some (JVal.str s.name)
    ∧ List.lookup "state_topic" (to_discovery s cfg)
        = Option.some (JVal.str (state_topic cfg.base_topic s.unique_id))
    ∧ List.lookup "unique_id" (to_discovery s cfg) = Option.some (JVal.str s.unique_id)
    ∧ List.lookup "device" (to_discovery s cfg)
        = Option.some (JVal.obj [("identifiers", JVal.arr [JVal.str cfg.device_id]),
                                 ("manufacturer", JVal.str "Creality"),
                                 ("name", JVal.str cfg.device_name),
                                 ("model", JVal.str "K1/K1 Max (WS Bridge)")])
    ∧ List.lookup "icon" (to_discovery s cfg)
        = Option.some (JVal.str (pyOr s.icon "mdi:printer-3d"))
    ∧ List.lookup "unit_of_measurement" (to_discovery s cfg) = condEntry s.unit
    ∧ List.lookup "device_class" (to_discovery s cfg) = condEntry s.device_class
    ∧ List.lookup "state_class" (to_discovery s cfg) = condEntry s.state_class
    ∧ (∀ m ∈ cfg.mappings,
        Act.publish (discovery_topic cfg.discRoot cfg.device_id m.unique_id)
          (Payload.json (to_discovery m cfg)) 1 true ∈ publish_discovery cfg)
    ∧ (∀ t p q r, Act.publish t p q r ∈ publish_discovery cfg → q = 1 ∧ r = true) := by
  refine ⟨rfl, rfl, rfl, rfl, rfl, ?_, ?_, ?_, ?_, ?_⟩
  · show List.lookup "unit_of_measurement"
        ((condList "unit_of_measurement" s.unit ++ condList "device_class" s.device_class)
          ++ condList "state_class" s.state_class) = condEntry s.unit
    rw [List.lookup_append, List.lookup_append, lookup_condList_self,
        lookup_condList_other _ _ (by decide), lookup_condList_other _ _ (by decide),
        Option.or_none, Option.or_none]
  · show List.lookup "device_class"
        ((condList "unit_of_measurement" s.unit ++ condList "device_class" s.device_class)
          ++ condList "state_class" s.state_class) = condEntry s.device_class
    rw [List.lookup_append, List.lookup_append, lookup_condList_self,
        lookup_condList_other _ _ (by decide), lookup_condList_other _ _ (by decide),
        Option.none_or, Option.or_none]
  · show List.lookup "state_class"
        ((condList "unit_of_measurement" s.unit ++ condList "device_class" s.device_class)
          ++ condList "state_class" s.state_class) = condEntry s.state_class
    rw [List.lookup_append, List.lookup_append, lookup_condList_self,
        lookup_condList_other _ _ (by decide), lookup_condList_other _ _ (by decide),
        Option.none_or, Option.none_or]
  · intro m hm
    refine List.mem_flatten.mpr ⟨_, List.mem_map_of_mem _ hm, ?_⟩
    exact List.mem_cons_self _ _
  · intro t p q r hmem
    obtain ⟨l, hl, hal⟩ := List.mem_flatten.mp hmem
    obtain ⟨m, _, rfl⟩ := List.mem_map.mp hl
    rcases List.mem_cons.mp hal with he | he
    · obtain ⟨-, -, hq, hr⟩ := Act.publish.inj he.symm
      exact ⟨hq.symm, hr.symm⟩
    · rcases List.mem_cons.mp he with he2 | he2
      · exact absurd he2 (fun h => Act.noConfusion h)
      · exact absurd he2 (List.not_mem_nil _)

/-- Witness for C5: the full mapping's record carries its unit
unchanged, and its discovery publish is among the published actions. -/
theorem discovery_record_spec_witness :
    List.lookup "unit_of_measurement" (to_discovery mFull cfgW) = Option.some (JVal.str "C")
    ∧ Act.publish (discovery_topic cfgW.discRoot cfgW.device_id mFull.unique_id)
        (Payload.json (to_discovery mFull cfgW)) 1 true ∈ publish_discovery cfgW := by
  obtain ⟨-, -, -, -, -, h6, -, -, hpub, -⟩ := discovery_record_spec mFull cfgW
  exact ⟨by rw [h6]; rfl, hpub mFull (by decide)⟩

/-- C6: `publish_state` publishes to `"{base_topic}/state/{uid}"`
retained at QoS 0, with an empty payload exactly for `None` and the
stringified value otherwise. -/
theorem publish_state_spec (cfg : Config) (uid : String) (v : PyVal) :
    ∃ payload : String,
      publish_state cfg uid v
        = Act.publish (state_topic cfg.base_topic uid) (Payload.text payload) 0 true
      ∧ (v = PyVal.none → payload = "")
      ∧ (v ≠ PyVal.none → payload = pyStr v) := by
  refine ⟨match v with | PyVal.none => "" | v => pyStr v, rfl,
    fun h => by subst h; rfl, fun h => ?_⟩
  cases v with
  | none => exact absurd rfl h
  | bool b => rfl
  | num q => rfl
  | str s => rfl
  | list l => rfl
  | dict d => rfl

/-- Witness for C6 at a non-`None` value. -/
theorem publish_state_spec_witness :
    publish_state cfgW "p" (PyVal.str "hi")
      = Act.publish (state_topic cfgW.base_topic "p") (Payload.text "hi") 0 true := by
  obtain ⟨pl, he, -, hn⟩ := publish_state_spec cfgW "p" (PyVal.str "hi")
  rw [he, hn (fun h => PyVal.noConfusion h)]
  simp [pyStr]

/-- Frame processing leaves backoff and connection state unchanged and
never increases the raw-frame quota. -/
theorem procFrame_state {Frame : Type} (find : String → Frame → List PyVal) (cfg : Config)
    (fe : FrameEvt Frame) (st : LoopState) :
    ((procFrame find cfg fe st).2).backoff = st.backoff
    ∧ ((procFrame find cfg fe st).2).conn = st.conn
    ∧ ((procFrame find cfg fe st).2).rawLeft ≤ st.rawLeft := by
  cases fe with
  | bad raw => by_cases h : 0 < st.rawLeft <;> simp [procFrame, h]
  | good data => by_cases h : 0 < st.rawLeft <;> simp [procFrame, h]

/-- `procFrame_state`, extended over a list of frames. -/
theorem procFrames_state {Frame : Type} (find : String → Frame → List PyVal) (cfg : Config) :
    ∀ (frames : List (FrameEvt Frame)) (st : LoopState),
      ((procFrames find cfg frames st).2).backoff = st.backoff
      ∧ ((procFrames find cfg frames st).2).conn = st.conn
      ∧ ((procFrames find cfg frames st).2).rawLeft ≤ st.rawLeft := by
  intro frames
  induction frames with
  | nil => intro st; exact ⟨rfl, rfl, le_refl _⟩
  | cons fe rest ih =>
      intro st
      have h1 := procFrame_state find cfg fe st
      have h2 := ih (procFrame find cfg fe st).2
      exact ⟨h2.1.trans h1.1, (h2.2.1).trans h1.2.1, le_trans h2.2.2 h1.2.2⟩

/-- No step of the supervisor ever increases the raw-frame quota. -/
theorem wsStep_rawLeft {Frame : Type} (find : String → Frame → List PyVal) (cfg : Config)
    (e : Event Frame) (st : LoopState) :
    ((wsStep find cfg e st).2).rawLeft ≤ st.rawLeft := by
  cases e with
  | connFail err => exact le_refl _
  | session frames err =>
      have h := (procFrames_state find cfg frames { st with conn := true, backoff := 2 }).2.2
      cases err with
      | some e2 => exact h
      | none => exact h

/-- Doubling a capped backoff and recapping equals capping the double. -/
theorem min_double_cap (x : ℕ) : min (min x 60 * 2) 60 = min (x * 2) 60 := by
  omega

/-- Backoff invariant of the reconnect loop: after any event prefix the
backoff is `min (2^(f+1)) 60` where `f` counts trailing consecutive
failures. -/
theorem wsRun_backoff {Frame : Type} (find : String → Frame → List PyVal) (cfg : Config) :
    ∀ (es : List (Event Frame)) (st : LoopState) (k : ℕ),
      st.backoff = min (2 ^ (k + 1)) 60 →
      ((wsRun find cfg es st).2).backoff = min (2 ^ (consecFailsFrom k es + 1)) 60 := by
  intro es
  induction es with
  | nil => intro st k h; exact h
  | cons e rest ih =>
      intro st k h
      cases e with
      | connFail err =>
          refine ih _ (k + 1) ?_
          show min (st.backoff * 2) 60 = min (2 ^ (k + 1 + 1)) 60
          rw [h, min_double_cap, ← pow_succ]
      | session frames err =>
          have hb := (procFrames_state find cfg frames { st with conn := true, backoff := 2 }).1
          cases err with
          | some e2 =>
              refine ih _ 1 ?_
              show min ((procFrames find cfg frames
                  { st with conn := true, backoff := 2 }).2.backoff * 2) 60
                = min (2 ^ (1 + 1)) 60
              rw [hb]
              norm_num
          | none =>
              refine ih _ 0 ?_
              show (procFrames find cfg frames
                  { st with conn := true, backoff := 2 }).2.backoff = min (2 ^ (0 + 1)) 60
              rw [hb]
              norm_num

/-- `sleepDurations` distributes over concatenation. -/
theorem sleepDurations_append (l1 l2 : List Act) :
    sleepDurations (l1 ++ l2) = sleepDurations l1 ++ sleepDurations l2 :=
  List.filterMap_append l1 l2 _

/-- Every action of the per-frame pipeline is a log line or a QoS-0
retained text publish. -/
theorem procFrame_mem {Frame : Type} (find : String → Frame → List PyVal) (cfg : Config)
    (fe : FrameEvt Frame) (st : LoopState) (a : Act)
    (h : a ∈ (procFrame find cfg fe st).1) :
    (∃ s, a = Act.log s) ∨ (∃ t p, a = Act.publish t (Payload.text p) 0 true) := by
  cases fe with
  | bad raw =>
      by_cases hq : 0 < st.rawLeft
      · simp [procFrame, hq] at h
        exact Or.inl ⟨_, h⟩
      · simp [procFrame, hq] at h
  | good data =>
      by_cases hq : 0 < st.rawLeft <;> simp [procFrame, hq] at h
      · rcases h with h | ⟨uv, w, -, rfl⟩
        · exact Or.inl ⟨_, h⟩
        · exact Or.inr ⟨_, _, rfl⟩
      · obtain ⟨uv, w, -, rfl⟩ := h
        exact Or.inr ⟨_, _, rfl⟩

/-- `procFrame_mem`, extended over a list of frames. -/
theorem procFrames_mem {Frame : Type} (find : String → Frame → List PyVal) (cfg : Config) :
    ∀ (frames : List (FrameEvt Frame)) (st : LoopState) (a : Act),
      a ∈ (procFrames find cfg frames st).1 →
      (∃ s, a = Act.log s) ∨ (∃ t p, a = Act.publish t (Payload.text p) 0 true) := by
  intro frames
  induction frames with
  | nil => intro st a h; exact absurd h (List.not_mem_nil a)
  | cons fe rest ih =>
      intro st a h
      rcases List.mem_append.mp h with h1 | h2
      · exact procFrame_mem find cfg fe st a h1
      · exact ih _ a h2

/-- Every action of `publish_discovery` is a publish or a log line; the
publishes are exactly one per mapping. -/
theorem publish_discovery_mem (cfg : Config) (a : Act) (h : a ∈ publish_discovery cfg) :
    (∃ s, a = Act.log s)
    ∨ (∃ m, m ∈ cfg.mappings
        ∧ a = Act.publish (discovery_topic cfg.discRoot cfg.device_id m.unique_id)
            (Payload.json (to_discovery m cfg)) 1 true) := by
  obtain ⟨l, hl, hal⟩ := List.mem_flatten.mp h
  obtain ⟨m, hm, rfl⟩ := List.mem_map.mp hl
  rcases List.mem_cons.mp hal with he | he
  · exact Or.inr ⟨m, hm, he⟩
  rcases List.mem_cons.mp he with he2 | he2
  · exact Or.inl ⟨_, he2⟩
  · exact absurd he2 (List.not_mem_nil _)

/-- A trace with no sleep action has no sleep durations. -/
theorem sleepDurations_eq_nil (l : List Act) (h : ∀ n : ℕ, Act.sleep n ∉ l) :
    sleepDurations l = [] := by
  induction l with
  | nil => rfl
  | cons a rest ih =>
      have ha : ∀ n : ℕ, Act.sleep n ∉ rest :=
        fun n hn => h n (List.mem_cons_of_mem a hn)
      cases a with
      | sleep n => exact absurd (List.mem_cons_self _ _) (h n)
      | log s => simpa [sleepDurations, List.filterMap_cons] using ih ha
      | publish t p q r => simpa [sleepDurations, List.filterMap_cons] using ih ha
      | setBackoff n => simpa [sleepDurations, List.filterMap_cons] using ih ha

/-- The pre-frame connection actions and the per-frame pipeline sleep
nowhere; only the failure handler sleeps. -/
theorem sleepDurations_session_parts {Frame : Type} (find : String → Frame → List PyVal)
    (cfg : Config) (frames : List (FrameEvt Frame)) (st : LoopState) :
    sleepDurations (publish_discovery cfg) = []
    ∧ sleepDurations ((procFrames find cfg frames st).1) = [] := by
  constructor
  · refine sleepDurations_eq_nil _ (fun n hn => ?_)
    rcases publish_discovery_mem cfg _ hn with ⟨s, hs⟩ | ⟨m, -, hs⟩ <;> exact Act.noConfusion hs
  · refine sleepDurations_eq_nil _ (fun n hn => ?_)
    rcases procFrames_mem find cfg frames st _ hn with ⟨s, hs⟩ | ⟨t, p, hs⟩ <;>
      exact Act.noConfusion hs

/-- Sleep durations of an empty trace. -/
@[simp] theorem sleepDurations_nil : sleepDurations [] = [] := rfl

/-- Log lines contribute no sleep duration. -/
@[simp] theorem sleepDurations_cons_log (s : String) (l : List Act) :
    sleepDurations (Act.log s :: l) = sleepDurations l := by
  simp [sleepDurations, List.filterMap_cons]

/-- Publishes contribute no sleep duration. -/
@[simp] theorem sleepDurations_cons_publish (t : String) (p : Payload) (q : ℕ) (r : Bool)
    (l : List Act) : sleepDurations (Act.publish t p q r :: l) = sleepDurations l := by
  simp [sleepDurations, List.filterMap_cons]

/-- Backoff assignments contribute no sleep duration. -/
@[simp] theorem sleepDurations_cons_setBackoff (n : ℕ) (l : List Act) :
    sleepDurations (Act.setBackoff n :: l) = sleepDurations l := by
  simp [sleepDurations, List.filterMap_cons]

/-- A sleep action contributes its duration. -/
@[simp] theorem sleepDurations_cons_sleep (n : ℕ) (l : List Act) :
    sleepDurations (Act.sleep n :: l) = n :: sleepDurations l := by
  simp [sleepDurations, List.filterMap_cons]

/-- The sleeps of one loop iteration: a failed attempt sleeps the
current backoff; a session ending in error sleeps the freshly reset
floor backoff 2; a cleanly closed session does not sleep. -/
theorem wsStep_sleeps {Frame : Type} (find : String → Frame → List PyVal) (cfg : Config)
    (st : LoopState) :
    (∀ err, sleepDurations ((wsStep find cfg (Event.connFail err) st).1) = [st.backoff])
    ∧ (∀ (frames : List (FrameEvt Frame)) (err : String),
        sleepDurations ((wsStep find cfg (Event.session frames (Option.some err)) st).1) = [2])
    ∧ (∀ (frames : List (FrameEvt Frame)),
        sleepDurations ((wsStep find cfg (Event.session frames Option.none) st).1) = []) := by
  refine ⟨fun err => ?_, fun frames err => ?_, fun frames => ?_⟩
  · simp [wsStep, failActions]
  · have hp := sleepDurations_session_parts find cfg frames
      { st with conn := true, backoff := 2 }
    have hb := (procFrames_state find cfg frames { st with conn := true, backoff := 2 }).1
    show sleepDurations
        ((Act.log ("Connecting to WebSocket: " ++ cfg.ws_url)
           :: Act.log "WebSocket connected."
           :: publish_discovery cfg ++ [Act.setBackoff 2])
          ++ (procFrames find cfg frames { st with conn := true, backoff := 2 }).1
          ++ (failActions err
               (procFrames find cfg frames { st with conn := true, backoff := 2 }).2).1)
      = [2]
    rw [sleepDurations_append, sleepDurations_append]
    simp only [sleepDurations_cons_log, sleepDurations_append, hp.1, hp.2,
      failActions, sleepDurations_cons_sleep, sleepDurations_cons_setBackoff,
      sleepDurations_nil, hb]
    rfl
  · have hp := sleepDurations_session_parts find cfg frames
      { st with conn := true, backoff := 2 }
    show sleepDurations
        ((Act.log ("Connecting to WebSocket: " ++ cfg.ws_url)
           :: Act.log "WebSocket connected."
           :: publish_discovery cfg ++ [Act.setBackoff 2])
          ++ (procFrames find cfg frames { st with conn := true, backoff := 2 }).1)
      = []
    rw [sleepDurations_append]
    simp only [sleepDurations_cons_log, sleepDurations_append, hp.1, hp.2,
      sleepDurations_cons_setBackoff, sleepDurations_nil, List.append_nil]

/-- Running a split event list composes the traces and threads the state. -/
theorem wsRun_append {Frame : Type} (find : String → Frame → List PyVal) (cfg : Config) :
    ∀ (es1 es2 : List (Event Frame)) (st : LoopState),
      wsRun find cfg (es1 ++ es2) st
        = ((wsRun find cfg es1 st).1 ++ (wsRun find cfg es2 (wsRun find cfg es1 st).2).1,
           (wsRun find cfg es2 (wsRun find cfg es1 st).2).2) := by
  intro es1
  induction es1 with
  | nil => intro es2 st; simp [wsRun]
  | cons e rest ih =>
      intro es2 st
      simp [wsRun, ih, List.append_assoc]

/-- `publish_discovery` makes exactly one discovery publish per mapping. -/
theorem countP_publish_discovery (cfg : Config) :
    (publish_discovery cfg).countP (fun a => a.isDiscoveryPublish) = cfg.mappings.length := by
  have h : ∀ maps : List Mapping,
      (List.flatten (maps.map (fun s =>
        [Act.publish (discovery_topic cfg.discRoot cfg.device_id s.unique_id)
           (Payload.json (to_discovery s cfg)) 1 true,
         Act.log ("Published discovery: "
           ++ discovery_topic cfg.discRoot cfg.device_id s.unique_id)]))).countP
        (fun a => a.isDiscoveryPublish) = maps.length := by
    intro maps
    induction maps with
    | nil => rfl
    | cons s rest ih =>
        rw [List.map_cons, List.flatten_cons, List.countP_append, ih]
        simp [List.countP_cons, List.countP_nil, Act.isDiscoveryPublish]
        omega
  exact h cfg.mappings

/-- The per-frame pipeline never publishes a discovery record. -/
theorem countP_procFrames_discovery {Frame : Type} (find : String → Frame → List PyVal)
    (cfg : Config) (frames : List (FrameEvt Frame)) (st : LoopState) :
    ((procFrames find cfg frames st).1).countP (fun a => a.isDiscoveryPublish) = 0 := by
  rw [List.countP_eq_zero]
  intro a ha
  rcases procFrames_mem find cfg frames st a ha with ⟨s, rfl⟩ | ⟨t, p, rfl⟩ <;>
    simp [Act.isDiscoveryPublish]

/-- C7 as stated is false on the code: on a successful open with the
concrete two-mapping configuration, no backoff reset precedes the first
discovery publication — the code publishes discovery first and resets
the backoff afterwards. -/
theorem connect_order_counterexample :
    resetBeforeDiscovery
      ((wsStep findW cfgW (Event.session [] Option.none) (initState cfgW)).1) = false := by
  decide

/-- C7 (amended): on every transition to Connected the supervisor logs,
publishes discovery once per mapping, then resets the backoff to its
floor 2, and only then consumes frames (which publish no discovery). -/
theorem connect_order_amended {Frame : Type} (find : String → Frame → List PyVal)
    (cfg : Config) (frames : List (FrameEvt Frame)) (err : Option String) (st : LoopState) :
    (wsStep find cfg (Event.session frames err) st).1
      = Act.log ("Connecting to WebSocket: " ++ cfg.ws_url)
        :: Act.log "WebSocket connected."
        :: (publish_discovery cfg
            ++ Act.setBackoff 2
            :: ((procFrames find cfg frames { st with conn := true, backoff := 2 }).1
                ++ (match err with
                    | Option.some e =>
                        (failActions e
                          (procFrames find cfg frames
                            { st with conn := true, backoff := 2 }).2).1
                    | Option.none => [])))
    ∧ (publish_discovery cfg).countP (fun a => a.isDiscoveryPublish) = cfg.mappings.length
    ∧ ((procFrames find cfg frames { st with conn := true, backoff := 2 }).1).countP
        (fun a => a.isDiscoveryPublish) = 0 := by
  refine ⟨?_, countP_publish_discovery cfg, countP_procFrames_discovery find cfg frames _⟩
  cases err <;> simp [wsStep, List.append_assoc]

/-- C1: the sleep before a reconnect attempt after f consecutive
failures is `min (2^(f+1)) 60` — i.e. 2, 4, 8, 16, 32, 60, 60, ... — a
session ending in failure sleeps the freshly reset floor 2, a cleanly
closed session leaves the backoff at the floor 2, and seven consecutive
failures from process start sleep exactly 2,4,8,16,32,60,60. -/
theorem backoff_spec {Frame : Type} (find : String → Frame → List PyVal) (cfg : Config) :
    (∀ (events : List (Event Frame)) (err : String),
      sleepDurations ((ws_loop find cfg (events ++ [Event.connFail err])).1)
        = sleepDurations ((ws_loop find cfg events).1)
          ++ [min (2 ^ (consecFails events + 1)) 60])
    ∧ (∀ (events : List (Event Frame)) (frames : List (FrameEvt Frame)) (err : String),
      sleepDurations ((ws_loop find cfg (events ++ [Event.session frames (Option.some err)])).1)
        = sleepDurations ((ws_loop find cfg events).1) ++ [2])
    ∧ (∀ (events : List (Event Frame)) (frames : List (FrameEvt Frame)),
      ((ws_loop find cfg (events ++ [Event.session frames Option.none])).2).backoff = 2)
    ∧ sleepDurations ((ws_loop find cfg (List.replicate 7 (Event.connFail "e"))).1)
        = [2, 4, 8, 16, 32, 60, 60] := by
  have hinit : (initState cfg).backoff = min (2 ^ (0 + 1)) 60 := by
    simp [initState, Nat.min_def]
  refine ⟨fun events err => ?_, fun events frames err => ?_, fun events frames => ?_, ?_⟩
  · simp only [ws_loop]
    rw [wsRun_append]
    show sleepDurations ((wsRun find cfg events (initState cfg)).1
        ++ (wsRun find cfg [Event.connFail err]
              (wsRun find cfg events (initState cfg)).2).1) = _
    rw [sleepDurations_append]
    congr 1
    show sleepDurations ((wsStep find cfg (Event.connFail err)
        (wsRun find cfg events (initState cfg)).2).1 ++ []) = _
    rw [List.append_nil,
       (wsStep_sleeps find cfg (wsRun find cfg events (initState cfg)).2).1 err,
       wsRun_backoff find cfg events (initState cfg) 0 hinit]
    rfl
  · simp only [ws_loop]
    rw [wsRun_append]
    show sleepDurations ((wsRun find cfg events (initState cfg)).1
        ++ (wsRun find cfg [Event.session frames (Option.some err)]
              (wsRun find cfg events (initState cfg)).2).1) = _
    rw [sleepDurations_append]
    congr 1
    show sleepDurations ((wsStep find cfg (Event.session frames (Option.some err))
        (wsRun find cfg events (initState cfg)).2).1 ++ []) = _
    rw [List.append_nil,
       (wsStep_sleeps find cfg (wsRun find cfg events (initState cfg)).2).2.1 frames err]
  · simp only [ws_loop]
    rw [wsRun_append]
    exact (procFrames_state find cfg frames _).1
  · show sleepDurations ((wsRun find cfg
        [Event.connFail "e", Event.connFail "e", Event.connFail "e", Event.connFail "e",
         Event.connFail "e", Event.connFail "e", Event.connFail "e"]
        (initState cfg)).1) = [2, 4, 8, 16, 32, 60, 60]
    simp [wsRun, wsStep, failActions, initState, Nat.min_def]

/-- C9: a malformed frame while connected publishes nothing, leaves the
connection state and backoff unchanged, emits at most one diagnostic log
line — exactly when the debug quota is positive, decrementing it — the
loop goes on to the remaining frames, and no event ever replenishes the
quota. -/
theorem malformed_frame_spec {Frame : Type} (find : String → Frame → List PyVal)
    (cfg : Config) (raw : String) (st : LoopState) :
    ((procFrame find cfg (FrameEvt.bad raw) st).1.countP (fun a => a.isPublish) = 0)
    ∧ ((procFrame find cfg (FrameEvt.bad raw) st).2.conn = st.conn)
    ∧ ((procFrame find cfg (FrameEvt.bad raw) st).2.backoff = st.backoff)
    ∧ ((procFrame find cfg (FrameEvt.bad raw) st).1.length ≤ 1)
    ∧ ((procFrame find cfg (FrameEvt.bad raw) st).1 ≠ [] ↔ 0 < st.rawLeft)
    ∧ (0 < st.rawLeft →
        (procFrame find cfg (FrameEvt.bad raw) st).2.rawLeft = st.rawLeft - 1)
    ∧ (∀ rest : List (FrameEvt Frame),
        (procFrames find cfg (FrameEvt.bad raw :: rest) st).1
          = (procFrame find cfg (FrameEvt.bad raw) st).1
            ++ (procFrames find cfg rest (procFrame find cfg (FrameEvt.bad raw) st).2).1)
    ∧ (∀ (e : Event Frame) (st1 : LoopState), ((wsStep find cfg e st1).2).rawLeft ≤ st1.rawLeft) := by
  by_cases h : 0 < st.rawLeft <;>
    refine ⟨?_, ?_, ?_, ?_, ?_, ?_, fun rest => rfl, fun e st1 => wsStep_rawLeft find cfg e st1⟩ <;>
    simp [procFrame, h, Act.isPublish, List.countP_cons, List.countP_nil]

/-- Witness for C9: with the debug quota at 3, a malformed frame logs at
most one line and leaves the quota at 2. -/
theorem malformed_frame_spec_witness :
    (procFrame findW cfgW (FrameEvt.bad "x") (initState cfgW)).1.length ≤ 1
    ∧ (procFrame findW cfgW (FrameEvt.bad "x") (initState cfgW)).2.rawLeft = 2 := by
  have h := malformed_frame_spec findW cfgW "x" (initState cfgW)
  refine ⟨h.2.2.2.1, ?_⟩
  rw [h.2.2.2.2.2.1 (by decide)]
  decide
